import Mathlib

/-!
Shallow embedding of the GoodWe MQTT bridge (src/goodwe_mqtt.py): request
dispatch, response formatting, the per-device connection cache, the polling
loop and the register read/write paths.  The external collaborators (the
MQTT client and the goodwe device library) are modelled as an explicit
environment of fallible operations keyed by host and port; Python
exceptions are the error case of Except, carrying str(e).
-/

/-- Whitespace characters recognised by Python str.split (ASCII subset). -/
def isWS (c : Char) : Bool :=
  c = ' ' || c = '\t' || c = '\n' || c = '\r' || c = '\x0b' || c = '\x0c'

/-- Worker for pyWords: scan the characters, accumulating the current token
reversed in acc, flushing it at whitespace. -/
def wordsGo : List Char → List Char → List String
  | [], acc => if acc.isEmpty then [] else [String.mk acc.reverse]
  | c :: cs, acc =>
    if isWS c then
      if acc.isEmpty then wordsGo cs [] else String.mk acc.reverse :: wordsGo cs []
    else wordsGo cs (c :: acc)

/-- Python str.split() with no argument: split on whitespace runs, dropping
empty tokens (so leading and trailing whitespace is irrelevant, which also
models the .strip() applied in _on_message before splitting). -/
def pyWords (s : String) : List String := wordsGo s.data []

/-- Worker for natToStr: most significant digits first; fuel n is always
sufficient since n / 10 reaches 0 within n steps. -/
def natToStrGo : Nat → Nat → List Char
  | 0, _ => []
  | _ + 1, 0 => []
  | fuel + 1, n + 1 => natToStrGo fuel ((n + 1) / 10) ++ [Nat.digitChar ((n + 1) % 10)]

/-- Decimal rendering of a natural number, as Python str(). -/
def natToStr (n : Nat) : String := if n = 0 then "0" else String.mk (natToStrGo n n)

/-- Decimal rendering of an integer, as Python str(). -/
def intToStr (i : Int) : String :=
  if i < 0 then "-" ++ natToStr i.natAbs else natToStr i.natAbs

/-- Numeric value of a list of decimal digit characters. -/
def digitsVal (l : List Char) : Nat :=
  l.foldl (fun a c => a * 10 + (c.toNat - '0'.toNat)) 0

/-- Python int(token) applied to a whitespace-free token: optional sign then
decimal digits (underscore digit grouping and non-ASCII digits, which Python
also accepts, are not modelled; no claim depends on them).  none models the
ValueError raise. -/
def pyInt? (s : String) : Option Int :=
  match s.data with
  | '-' :: rest =>
    if !rest.isEmpty && rest.all Char.isDigit then some (-(digitsVal rest : Int)) else none
  | '+' :: rest =>
    if !rest.isEmpty && rest.all Char.isDigit then some (digitsVal rest : Int) else none
  | l =>
    if !l.isEmpty && l.all Char.isDigit then some (digitsVal l : Int) else none

/-- Python " ".join. -/
def joinSpace : List String → String
  | [] => ""
  | [x] => x
  | x :: y :: xs => x ++ " " ++ joinSpace (y :: xs)

/-- Python str.lower() on the ASCII range, used on the operation token. -/
def lowerStr (s : String) : String := String.mk (s.data.map Char.toLower)

/-- Values returned by read_runtime_data / read_settings_data.  A Python
float is modelled by the integer number of hundredths its two-decimal
rendering shows (binary floating point itself is outside the embedding;
only the rendered shape matters to the spec). -/
inductive RtValue where
  | float (hundredths : Int)
  | bool (b : Bool)
  | int (n : Int)
  | str (s : String)
deriving DecidableEq

/-- Two-decimal fraction part, zero padded. -/
def twoDigits (r : Nat) : String := if r < 10 then "0" ++ natToStr r else natToStr r

/-- Python format value:.2f on the modelled float (its value in
hundredths). -/
def formatHundredths (q : Int) : String :=
  (if q < 0 then "-" else "") ++ natToStr (q.natAbs / 100) ++ "." ++ twoDigits (q.natAbs % 100)

/-- Value formatting shared by _query_sensors (source lines 380-386) and
_query_settings (lines 398-404): float to fixed two decimals, bool to 1/0,
anything else str(value).replace(' ', '_').  str.replace of a single
character is a character map. -/
def encodeValue : RtValue → String
  | .float q => formatHundredths q
  | .bool b => if b then "1" else "0"
  | .int n => intToStr n
  | .str s => String.mk (s.data.map fun c => if c = ' ' then '_' else c)

/-- One key=value pair of a telemetry payload. -/
def encodePair (kv : String × RtValue) : String := kv.1 ++ "=" ++ encodeValue kv.2

/-- One configured inverter entry: id, host ("" when absent) and port. -/
structure InvCfg where
  id : String
  host : String
  port : Int
deriving DecidableEq

/-- Mutable bridge state: the connection cache keys (the cached handle is
determined by its (host, port) key) and the poll sequence counter. -/
structure BridgeState where
  cache : List (String × Int)
  pollSeq : Nat
deriving DecidableEq

/-- The collaborator library, as an environment of operations per host and
port; the error case is a raised exception carrying str(e). -/
structure Env where
  connectRes : String → Int → Except String Unit
  runtime : String → Int → Except String (List (String × RtValue))
  settingsData : String → Int → Except String (List (String × RtValue))
  readRaw : String → Int → Int → Int → Except String (List Nat)
  writeOne : String → Int → Int → Int → Except String Unit
  writeMany : String → Int → Int → List Nat → Except String Unit
  modelName : String → Int → String
  serialNumber : String → Int → String
  familyName : String → Int → String

/-- _get_inverter (source lines 158-163): first configured inverter whose id
matches the requested one. -/
def get_inverter (invs : List InvCfg) (inverter_id : String) : Option InvCfg :=
  invs.find? fun inv => inv.id == inverter_id

/-- _connect (source lines 165-174): return the cached connection for
(host, port), or connect and cache it; a connect failure raises. -/
def pyConnect (env : Env) (st : BridgeState) (host : String) (port : Int) :
    Except String BridgeState :=
  if st.cache.contains (host, port) then .ok st
  else
    match env.connectRes host port with
    | .ok _ => .ok { st with cache := (host, port) :: st.cache }
    | .error e => .error e

/-- SENSOR_GROUPS (source lines 314-346). -/
def sensorGroup? : String → Option (List String)
  | "pv" => some ["vpv1", "ipv1", "ppv1", "pv1_mode",
                  "vpv2", "ipv2", "ppv2", "pv2_mode",
                  "vpv3", "ipv3", "ppv3", "pv3_mode",
                  "vpv4", "ipv4", "ppv4", "pv4_mode"]
  | "battery" => some ["vbattery1", "ibattery1", "pbattery1",
                       "battery_mode", "battery_soc", "battery_soh",
                       "battery_temperature", "battery_status",
                       "battery_charge_limit", "battery_discharge_limit",
                       "battery_error", "battery_warning",
                       "battery_bms", "battery_index",
                       "battery_temperature_bms", "battery_charge_limit_bms",
                       "battery_discharge_limit_bms", "battery_soc_bms"]
  | "grid" => some ["vgrid", "igrid", "pgrid", "fgrid", "grid_mode",
                    "vgrid2", "igrid2", "pgrid2", "fgrid2", "grid_mode2",
                    "vgrid3", "igrid3", "pgrid3", "fgrid3", "grid_mode3",
                    "vload", "iload", "pload", "fload", "load_mode",
                    "apparent_power", "reactive_power", "power_factor",
                    "meter_power", "meter_power2", "meter_power3"]
  | "energy" => some ["e_total", "h_total", "e_day",
                      "e_load_day", "e_load_total",
                      "total_power", "active_power",
                      "e_battery_charge_day", "e_battery_charge_total",
                      "e_battery_discharge_day", "e_battery_discharge_total",
                      "e_grid_export", "e_grid_import",
                      "e_grid_export_day", "e_grid_import_day"]
  | "system" => some ["work_mode", "work_mode_label",
                      "temperature", "temperature2",
                      "error_codes", "warning_code",
                      "safety_country", "safety_country_label",
                      "diagnose_result", "diagnose_result_label",
                      "effective_work_mode"]
  | _ => none

/-- _query_sensors (source lines 359-390): connect, read runtime data,
filter to the group (all disables filtering), encode pairs; every failure
is caught and becomes an ERR response string. -/
def query_sensors (env : Env) (st : BridgeState) (host : String) (port : Int)
    (cookie group : String) : String × BridgeState :=
  match pyConnect env st host port with
  | .error e => (cookie ++ " ERR " ++ e, st)
  | .ok st1 =>
    match env.runtime host port with
    | .error e => (cookie ++ " ERR " ++ e, st1)
    | .ok data =>
      if group = "all" then
        (cookie ++ " OK " ++ joinSpace (data.map encodePair), st1)
      else
        match sensorGroup? group with
        | none => (cookie ++ " ERR unknown group \x27" ++ group ++ "\x27", st1)
        | some wanted =>
          (cookie ++ " OK " ++
            joinSpace ((data.filter fun kv => wanted.contains kv.1).map encodePair), st1)

/-- _query_settings (source lines 392-407). -/
def query_settings (env : Env) (st : BridgeState) (host : String) (port : Int)
    (cookie : String) : String × BridgeState :=
  match pyConnect env st host port with
  | .error e => (cookie ++ " ERR " ++ e, st)
  | .ok st1 =>
    match env.settingsData host port with
    | .error e => (cookie ++ " ERR " ++ e, st1)
    | .ok data => (cookie ++ " OK " ++ joinSpace (data.map encodePair), st1)

/-- _device_info (source lines 348-357). -/
def device_info (env : Env) (st : BridgeState) (host : String) (port : Int)
    (cookie : String) : String × BridgeState :=
  match pyConnect env st host port with
  | .error e => (cookie ++ " ERR " ++ e, st)
  | .ok st1 =>
    (cookie ++ " OK model=" ++ env.modelName host port ++
      " serial=" ++ env.serialNumber host port ++
      " family=" ++ env.familyName host port, st1)

/-- The struct.unpack loop of _read_registers (source lines 415-418): k is
the number of loop iterations, each consuming raw[i : i + 2]; a final
one-byte slice raises struct.error. -/
def unpackPairs : List Nat → Nat → Except String (List Nat)
  | _, 0 => .ok []
  | [], _ + 1 => .ok []
  | [_], _ + 1 => .error "unpack requires a buffer of 2 bytes"
  | b1 :: b2 :: rest, k + 1 =>
    match unpackPairs rest k with
    | .error e => .error e
    | .ok vs => .ok ((b1 * 256 + b2) :: vs)

/-- _read_registers (source lines 409-421): read raw bytes, then unpack
big-endian 16-bit values for i in range(0, min(count * 2, len(raw)), 2);
all failures are caught into an ERR response. -/
def read_registers (env : Env) (host : String) (port : Int) (cookie : String)
    (offset count : Int) : String :=
  match env.readRaw host port offset count with
  | .error e => cookie ++ " ERR " ++ e
  | .ok raw =>
    match unpackPairs raw (((min (2 * count) (raw.length : Int)).toNat + 1) / 2) with
    | .error e => cookie ++ " ERR " ++ e
    | .ok vals => cookie ++ " OK " ++ joinSpace (vals.map natToStr)

/-- _write_register (source lines 423-430). -/
def write_register (env : Env) (host : String) (port : Int) (cookie : String)
    (reg value : Int) : String :=
  match env.writeOne host port reg value with
  | .ok _ => cookie ++ " OK"
  | .error e => cookie ++ " ERR " ++ e

/-- _write_multi (source lines 432-439). -/
def write_multi (env : Env) (host : String) (port : Int) (cookie : String)
    (offset : Int) (data : List Nat) : String :=
  match env.writeMany host port offset data with
  | .ok _ => cookie ++ " OK"
  | .error e => cookie ++ " ERR " ++ e

/-- int(v).to_bytes(2, "big") (source line 308): OverflowError on values
outside the unsigned 16-bit range. -/
def toBytes2 (v : Int) : Except String (List Nat) :=
  if v < 0 then .error "can\x27t convert negative int to unsigned"
  else if 65536 ≤ v then .error "int too big to convert"
  else .ok [v.toNat / 256, v.toNat % 256]

/-- The data accumulation loop of func 16 (source lines 306-308): convert
each remaining token and append its two big-endian bytes; the first
ValueError or OverflowError raises out of _handle_request. -/
def buildBytes : List String → Except String (List Nat)
  | [] => .ok []
  | t :: ts =>
    match pyInt? t with
    | none => .error ("invalid literal for int() with base 10: \x27" ++ t ++ "\x27")
    | some v =>
      match toBytes2 v with
      | .error e => .error e
      | .ok bs =>
        match buildBytes ts with
        | .error e => .error e
        | .ok rest => .ok (bs ++ rest)

/-- Device commands issued to the collaborator library by the register
read/write path, recorded as effects. -/
inductive DevCmd where
  | read (host : String) (port : Int) (offset count : Int)
  | write (host : String) (port : Int) (reg value : Int)
  | writeMulti (host : String) (port : Int) (offset : Int) (data : List Nat)
deriving DecidableEq

/-- Outcome of _handle_request: the response (or the escaping exception),
the state after it, and the device commands issued. -/
structure HandleOut where
  resp : Except String String
  st : BridgeState
  cmds : List DevCmd

/-- The register-function tail of _handle_request (source lines 294-311),
entered once FUNC, REG and COUNT have parsed as integers: connect (outside
any try, so a failure raises), then dispatch on the function code.  The
.error case is an exception escaping the coroutine (connect failure,
int(parts[5]) ValueError, to_bytes OverflowError), caught only in
_on_message. -/
def handleFunc (env : Env) (st : BridgeState) (host : String) (port : Int)
    (cookie : String) (parts : List String) (func reg count : Int) : HandleOut :=
  match pyConnect env st host port with
  | .error e => ⟨.error e, st, []⟩
  | .ok st1 =>
    if func = 3 ∨ func = 4 then
      ⟨.ok (read_registers env host port cookie reg count), st1,
        [.read host port reg count]⟩
    else if func = 6 then
      if parts.length < 6 then
        ⟨.ok (cookie ++ " ERR missing write value"), st1, []⟩
      else
        match pyInt? (parts.getD 5 "") with
        | none =>
          ⟨.error ("invalid literal for int() with base 10: \x27" ++
            parts.getD 5 "" ++ "\x27"), st1, []⟩
        | some value =>
          ⟨.ok (write_register env host port cookie reg value), st1,
            [.write host port reg value]⟩
    else if func = 16 then
      if parts.length < 6 then
        ⟨.ok (cookie ++ " ERR missing write values"), st1, []⟩
      else
        match buildBytes (parts.drop 5) with
        | .error e => ⟨.error e, st1, []⟩
        | .ok data =>
          ⟨.ok (write_multi env host port cookie reg data), st1,
            [.writeMulti host port reg data]⟩
    else
      ⟨.ok (cookie ++ " ERR unsupported function " ++ intToStr func), st1, []⟩

/-- _handle_request (source lines 249-293) over the already-split token
list: shape check, inverter lookup, host check, text commands, integer
parsing, then the register-function tail handleFunc. -/
def handleParts (env : Env) (invs : List InvCfg) (st : BridgeState)
    (parts : List String) : HandleOut :=
  if parts.length < 3 then
    ⟨.ok (parts.headD "0" ++ " ERR invalid format: need COOKIE INVERTER_ID FUNC ..."), st, []⟩
  else
    match get_inverter invs (parts.getD 1 "") with
    | none =>
      ⟨.ok (parts.headD "0" ++ " ERR unknown inverter id \x27" ++ parts.getD 1 "" ++ "\x27"),
        st, []⟩
    | some inv =>
      if inv.host = "" then
        ⟨.ok (parts.headD "0" ++ " ERR inverter " ++ parts.getD 1 "" ++ " has no host configured"),
          st, []⟩
      else if lowerStr (parts.getD 2 "") = "info" then
        ⟨.ok (device_info env st inv.host inv.port (parts.headD "0")).1,
          (device_info env st inv.host inv.port (parts.headD "0")).2, []⟩
      else if lowerStr (parts.getD 2 "") = "pv" ∨ lowerStr (parts.getD 2 "") = "battery" ∨
          lowerStr (parts.getD 2 "") = "grid" ∨ lowerStr (parts.getD 2 "") = "energy" ∨
          lowerStr (parts.getD 2 "") = "system" ∨ lowerStr (parts.getD 2 "") = "all" then
        ⟨.ok (query_sensors env st inv.host inv.port (parts.headD "0") (lowerStr (parts.getD 2 ""))).1,
          (query_sensors env st inv.host inv.port (parts.headD "0") (lowerStr (parts.getD 2 ""))).2, []⟩
      else if lowerStr (parts.getD 2 "") = "settings" then
        ⟨.ok (query_settings env st inv.host inv.port (parts.headD "0")).1,
          (query_settings env st inv.host inv.port (parts.headD "0")).2, []⟩
      else if parts.length < 5 then
        ⟨.ok (parts.headD "0" ++ " ERR invalid format: need COOKIE INVERTER_ID FUNC REG COUNT"), st, []⟩
      else
        match pyInt? (parts.getD 2 ""), pyInt? (parts.getD 3 ""), pyInt? (parts.getD 4 "") with
        | some func, some reg, some count =>
          handleFunc env st inv.host inv.port (parts.headD "0") parts func reg count
        | _, _, _ => ⟨.ok (parts.headD "0" ++ " ERR invalid numeric values"), st, []⟩

/-- _handle_request on the raw payload line. -/
def handle_request (env : Env) (invs : List InvCfg) (st : BridgeState)
    (payload : String) : HandleOut :=
  handleParts env invs st (pyWords payload)

/-- Outcome of _on_message: the published response lines (always exactly
one), the state and the commands issued. -/
structure MsgOut where
  pub : List String
  st : BridgeState
  cmds : List DevCmd
deriving DecidableEq

/-- _on_message (source lines 232-247): run the handler, catching any
exception into cookie ERR str(e), and publish the single result line. -/
def on_message (env : Env) (invs : List InvCfg) (st : BridgeState)
    (payload : String) : MsgOut :=
  let out := handle_request env invs st payload
  match out.resp with
  | .ok r => ⟨[r], out.st, out.cmds⟩
  | .error e => ⟨[(pyWords payload).headD "0" ++ " ERR " ++ e], out.st, out.cmds⟩

/-- _poll_inverter (source lines 441-457): skip hostless devices, otherwise
query the all group and publish the result.  Since _query_sensors catches
every exception, the except branch of _poll_inverter (log and evict) is
unreachable for device transport failures and publishing is modelled as
pure, so that branch has no effect here. -/
def poll_inverter (env : Env) (st : BridgeState) (inv : InvCfg) :
    BridgeState × List String :=
  if inv.host = "" then (st, [])
  else
    let cookie := "poll_" ++ natToStr st.pollSeq ++ "_" ++ inv.id
    let q := query_sensors env st inv.host inv.port cookie "all"
    (q.2, [q.1])

/-- The device loop of _poll_all (source lines 459-463). -/
def poll_loop (env : Env) : List InvCfg → BridgeState → BridgeState × List String
  | [], st => (st, [])
  | inv :: rest, st =>
    let p := poll_inverter env st inv
    let q := poll_loop env rest p.1
    (q.1, p.2 ++ q.2)

/-- _poll_all (source lines 459-463): bump the sequence counter, then poll
every configured inverter in configuration order. -/
def poll_all (env : Env) (invs : List InvCfg) (st : BridgeState) :
    BridgeState × List String :=
  poll_loop env invs { st with pollSeq := st.pollSeq + 1 }

/-- Scheduler events of the run() loop: one _poll_all call or one
time.sleep(1). -/
inductive SchedEvent where
  | poll
  | sleepOne
deriving DecidableEq

/-- The run() loop (source lines 497-510): interval = max(poll_interval, 5);
each iteration polls when inverters are configured and interval > 0, then
sleeps interval seconds one second at a time; n is the number of loop
iterations with running still true. -/
def runTicks (pollInterval : Int) (hasInverters : Bool) (n : Nat) : List SchedEvent :=
  let interval : Int := max pollInterval 5
  match n with
  | 0 => []
  | n + 1 =>
    (if hasInverters ∧ 0 < interval then [SchedEvent.poll] else [])
      ++ List.replicate interval.toNat SchedEvent.sleepOne
      ++ runTicks pollInterval hasInverters n

/-- Modelled from the spec: the Range Discovery and Merge Engine of spec
section 4.3 is not among the files under src (only the bridge, the test
client and the test server are); the sensor register spans, the sorted
sweep merging gaps of at most 10 registers, and the split of intervals
longer than 125 registers are taken from the spec text. -/
structure SensorDecl where
  offset : Nat
  byteSize : Nat
deriving DecidableEq

/-- Modelled from the spec: a sensor's register span (offset,
offset + ceil(byteSize / 2) - 1), at least one register. -/
def spanOf (s : SensorDecl) : Nat × Nat :=
  (s.offset, s.offset + (max ((s.byteSize + 1) / 2) 1 - 1))

/-- Insertion step of the sort of spans by starting offset. -/
def insertSpan (x : Nat × Nat) : List (Nat × Nat) → List (Nat × Nat)
  | [] => [x]
  | y :: ys => if x.1 ≤ y.1 then x :: y :: ys else y :: insertSpan x ys

/-- Sort spans by starting offset ascending. -/
def sortSpans (l : List (Nat × Nat)) : List (Nat × Nat) := l.foldr insertSpan []

/-- Modelled from the spec: the left-to-right sweep, merging the open
interval with the next span when the gap (registers strictly between) is
at most 10, i.e. when next.start ≤ cur.end + 11. -/
def mergeGo : List (Nat × Nat) → Nat × Nat → List (Nat × Nat)
  | [], cur => [cur]
  | sp :: rest, cur =>
    if sp.1 ≤ cur.2 + 11 then mergeGo rest (cur.1, max cur.2 sp.2)
    else cur :: mergeGo rest sp

/-- Worker for splitRange; the fuel (initially count) bounds the number of
125-register chunks peeled off. -/
def splitGo : Nat → Nat → Nat → List (Nat × Nat)
  | 0, start, count => [(start, count)]
  | fuel + 1, start, count =>
    if count ≤ 125 then [(start, count)]
    else (start, 125) :: splitGo fuel (start + 125) (count - 125)

/-- Modelled from the spec: split an interval of count registers at start
into chunks of exactly 125 followed by one remainder chunk. -/
def splitRange (start count : Nat) : List (Nat × Nat) := splitGo count start count

/-- Modelled from the spec: full range discovery of a sensor catalog:
spans, sort, sweep-merge, emit (start, count), split oversized intervals. -/
def discoverRanges (catalog : List SensorDecl) : List (Nat × Nat) :=
  match sortSpans (catalog.map spanOf) with
  | [] => []
  | sp :: rest => (mergeGo rest sp).flatMap fun iv => splitRange iv.1 (iv.2 - iv.1 + 1)

/-- Concrete single-device configuration used by witnesses and
counterexamples. -/
def cfgW : List InvCfg := [⟨"0", "h", 8899⟩]

/-- Empty initial bridge state. -/
def st0 : BridgeState := ⟨[], 0⟩

/-- Environment where every collaborator operation succeeds. -/
def env0 : Env :=
  ⟨fun _ _ => .ok (), fun _ _ => .ok [], fun _ _ => .ok [],
   fun _ _ _ _ => .ok [], fun _ _ _ _ => .ok (), fun _ _ _ _ => .ok (),
   fun _ _ => "m", fun _ _ => "s", fun _ _ => "f"⟩

/-- Environment whose runtime-data read raises a transport error. -/
def envFailRead : Env := { env0 with runtime := fun _ _ => .error "read timeout" }

/-- Environment whose register read returns a single byte. -/
def envShort : Env := { env0 with readRaw := fun _ _ _ _ => .ok [171] }

/-- Environment whose runtime data holds a string value containing a tab. -/
def envTab : Env :=
  { env0 with runtime := fun _ _ => .ok [("vpv1", RtValue.str "a\tb")] }

/-! ### Token and response-prefix lemmas -/

/-- The response s starts with the token c followed by a space. -/
def startsTok (c s : String) : Prop := ∃ r, s.data = c.data ++ ' ' :: r

lemma dataAppend (a b : String) : (a ++ b).data = a.data ++ b.data := rfl

lemma startsTok_lit (c m : String) (r : List Char) (h : m.data = ' ' :: r) :
    startsTok c (c ++ m) := ⟨r, by simp [dataAppend, h]⟩

lemma startsTok_app (c : String) (s t : String) (h : startsTok c s) :
    startsTok c (s ++ t) := by
  obtain ⟨r, hr⟩ := h
  exact ⟨r ++ t.data, by simp [dataAppend, hr]⟩

/-- Every token produced by the splitter is nonempty and whitespace-free. -/
lemma wordsGo_ws_free : ∀ (cs acc : List Char), (∀ ch ∈ acc, isWS ch = false) →
    ∀ t ∈ wordsGo cs acc, t.data ≠ [] ∧ ∀ ch ∈ t.data, isWS ch = false := by
  intro cs
  induction cs with
  | nil =>
    intro acc hacc t ht
    by_cases h : acc.isEmpty
    · simp [wordsGo, h] at ht
    · simp [wordsGo, h] at ht
      subst ht
      constructor
      · have hne2 : acc ≠ [] := by simpa [List.isEmpty_iff] using h
        simpa [List.reverse_eq_nil_iff] using hne2
      · intro ch hch
        exact hacc ch (List.mem_reverse.mp hch)
  | cons c cs ih =>
    intro acc hacc t ht
    by_cases hws : isWS c
    · by_cases h : acc.isEmpty
      · rw [wordsGo, if_pos hws, if_pos h] at ht
        exact ih [] (by simp) t ht
      · rw [wordsGo, if_pos hws, if_neg h] at ht
        rcases List.mem_cons.mp ht with h1 | h1
        · subst h1
          constructor
          · have hne2 : acc ≠ [] := by simpa [List.isEmpty_iff] using h
            simpa [List.reverse_eq_nil_iff] using hne2
          · intro ch hch
            exact hacc ch (List.mem_reverse.mp hch)
        · exact ih [] (by simp) t h1
    · rw [wordsGo, if_neg hws] at ht
      refine ih (c :: acc) ?_ t ht
      intro ch hch
      rcases List.mem_cons.mp hch with h1 | h1
      · subst h1; simpa using hws
      · exact hacc ch h1

/-- Scanning a whitespace-free token followed by a space yields that token
first. -/
lemma wordsGo_token : ∀ (c acc r : List Char),
    (c = [] → acc ≠ []) → (∀ ch ∈ c, isWS ch = false) →
    wordsGo (c ++ ' ' :: r) acc = String.mk (acc.reverse ++ c) :: wordsGo r [] := by
  intro c
  induction c with
  | nil =>
    intro acc r hne _
    have h : acc.isEmpty = false := by
      simpa [List.isEmpty_iff] using hne rfl
    simp [wordsGo, isWS, h]
  | cons x xs ih =>
    intro acc r hne hws
    have hx : isWS x = false := hws x (by simp)
    rw [List.cons_append, wordsGo, if_neg (by simp [hx])]
    rw [ih (x :: acc) r (by simp) (fun ch hch => hws ch (by simp [hch]))]
    simp

/-- A response that starts with a clean token c splits into c followed by
the rest. -/
lemma pyWords_cons_of_startsTok (t s : String) (h : startsTok t s)
    (hne : t.data ≠ []) (hws : ∀ ch ∈ t.data, isWS ch = false) :
    ∃ rest, pyWords s = t :: rest := by
  obtain ⟨r, hr⟩ := h
  refine ⟨wordsGo r [], ?_⟩
  rw [pyWords, hr, wordsGo_token t.data [] r (fun h2 => absurd h2 hne) hws]
  simp

lemma qs_starts (env : Env) (st : BridgeState) (host : String) (port : Int)
    (cookie group : String) :
    startsTok cookie (query_sensors env st host port cookie group).1 := by
  unfold query_sensors
  rcases pyConnect env st host port with e | st1
  · exact startsTok_app _ _ _ (startsTok_lit cookie " ERR " _ rfl)
  · rcases env.runtime host port with e | data
    · exact startsTok_app _ _ _ (startsTok_lit cookie " ERR " _ rfl)
    · by_cases hall : group = "all"
      · simp only [hall, if_pos]
        exact startsTok_app _ _ _ (startsTok_lit cookie " OK " _ rfl)
      · simp only [if_neg hall]
        rcases sensorGroup? group with _ | wanted
        · exact startsTok_app _ _ _
            (startsTok_app _ _ _ (startsTok_lit cookie " ERR unknown group \x27" _ rfl))
        · exact startsTok_app _ _ _ (startsTok_lit cookie " OK " _ rfl)

lemma qset_starts (env : Env) (st : BridgeState) (host : String) (port : Int)
    (cookie : String) :
    startsTok cookie (query_settings env st host port cookie).1 := by
  unfold query_settings
  rcases pyConnect env st host port with e | st1
  · exact startsTok_app _ _ _ (startsTok_lit cookie " ERR " _ rfl)
  · rcases env.settingsData host port with e | data
    · exact startsTok_app _ _ _ (startsTok_lit cookie " ERR " _ rfl)
    · exact startsTok_app _ _ _ (startsTok_lit cookie " OK " _ rfl)

lemma di_starts (env : Env) (st : BridgeState) (host : String) (port : Int)
    (cookie : String) :
    startsTok cookie (device_info env st host port cookie).1 := by
  unfold device_info
  rcases pyConnect env st host port with e | st1
  · exact startsTok_app _ _ _ (startsTok_lit cookie " ERR " _ rfl)
  · exact startsTok_app _ _ _ (startsTok_app _ _ _ (startsTok_app _ _ _
      (startsTok_app _ _ _ (startsTok_app _ _ _
        (startsTok_lit cookie " OK model=" _ rfl)))))

lemma rr_starts (env : Env) (host : String) (port : Int) (cookie : String)
    (offset count : Int) :
    startsTok cookie (read_registers env host port cookie offset count) := by
  unfold read_registers
  split
  · exact startsTok_app _ _ _ (startsTok_lit cookie " ERR " _ rfl)
  · split
    · exact startsTok_app _ _ _ (startsTok_lit cookie " ERR " _ rfl)
    · exact startsTok_app _ _ _ (startsTok_lit cookie " OK " _ rfl)

lemma wr_starts (env : Env) (host : String) (port : Int) (cookie : String)
    (reg value : Int) :
    startsTok cookie (write_register env host port cookie reg value) := by
  unfold write_register
  rcases env.writeOne host port reg value with e | u
  · exact startsTok_app _ _ _ (startsTok_lit cookie " ERR " _ rfl)
  · exact startsTok_lit cookie " OK" _ rfl

lemma wm_starts (env : Env) (host : String) (port : Int) (cookie : String)
    (offset : Int) (data : List Nat) :
    startsTok cookie (write_multi env host port cookie offset data) := by
  unfold write_multi
  rcases env.writeMany host port offset data with e | u
  · exact startsTok_app _ _ _ (startsTok_lit cookie " ERR " _ rfl)
  · exact startsTok_lit cookie " OK" _ rfl

/-- Every non-raising response of the register-function tail starts with
the cookie. -/
lemma handleFunc_starts (env : Env) (st : BridgeState) (host : String) (port : Int)
    (cookie : String) (parts : List String) (func reg count : Int) (s : String)
    (h : (handleFunc env st host port cookie parts func reg count).resp = .ok s) :
    startsTok cookie s := by
  unfold handleFunc at h
  split at h
  · exact Except.noConfusion h
  · split at h
    · injection h with h
      subst h
      exact rr_starts ..
    · split at h
      · split at h
        · injection h with h
          subst h
          exact startsTok_lit _ _ _ rfl
        · split at h
          · exact Except.noConfusion h
          · injection h with h
            subst h
            exact wr_starts ..
      · split at h
        · split at h
          · injection h with h
            subst h
            exact startsTok_lit _ _ _ rfl
          · split at h
            · exact Except.noConfusion h
            · injection h with h
              subst h
              exact wm_starts ..
        · injection h with h
          subst h
          exact startsTok_app _ _ _ (startsTok_lit _ _ _ rfl)

/-- Every non-raising response of _handle_request starts with the request
cookie (or the fallback 0 for an empty request). -/
lemma handle_starts (env : Env) (invs : List InvCfg) (st : BridgeState)
    (parts : List String) (s : String)
    (h : (handleParts env invs st parts).resp = .ok s) :
    startsTok (parts.headD "0") s := by
  unfold handleParts at h
  split at h
  · injection h with h
    subst h
    exact startsTok_lit _ _ _ rfl
  · split at h
    · injection h with h
      subst h
      exact startsTok_app _ _ _ (startsTok_app _ _ _ (startsTok_lit _ _ _ rfl))
    · split at h
      · injection h with h
        subst h
        exact startsTok_app _ _ _ (startsTok_app _ _ _ (startsTok_lit _ _ _ rfl))
      · split at h
        · injection h with h
          subst h
          exact di_starts ..
        · split at h
          · injection h with h
            subst h
            exact qs_starts ..
          · split at h
            · injection h with h
              subst h
              exact qset_starts ..
            · split at h
              · injection h with h
                subst h
                exact startsTok_lit _ _ _ rfl
              · split at h
                · exact handleFunc_starts _ _ _ _ _ _ _ _ _ _ h
                · injection h with h
                  subst h
                  exact startsTok_lit _ _ _ rfl

/-- C1: every inbound request line delivered to the dispatcher publishes
exactly one response line, and when the request has at least one token the
response's first whitespace-separated token is exactly the request's first
token (the cookie). -/
theorem C1_exactly_one_response_same_cookie (env : Env) (invs : List InvCfg)
    (st : BridgeState) (payload : String) :
    (on_message env invs st payload).pub.length = 1 ∧
    ∀ t ts, pyWords payload = t :: ts →
      (pyWords ((on_message env invs st payload).pub.headD "")).head? = some t := by
  constructor
  · simp only [on_message]
    rcases hr : (handle_request env invs st payload).resp <;> simp [hr]
  · intro t ts hw
    have htmem : t ∈ pyWords payload := by rw [hw]; simp
    obtain ⟨hne, hws⟩ := wordsGo_ws_free payload.data [] (by simp) t htmem
    have hhead : (pyWords payload).headD "0" = t := by rw [hw]; rfl
    simp only [on_message]
    rcases hr : (handle_request env invs st payload).resp with e | s2
    · have hst : startsTok t (t ++ " ERR " ++ e) :=
        startsTok_app _ _ _ (startsTok_lit t " ERR " _ rfl)
      obtain ⟨rest, hr2⟩ := pyWords_cons_of_startsTok t _ hst hne hws
      simp [hr, hw, hr2]
    · have hst : startsTok t s2 := by
        rw [← hhead]
        exact handle_starts env invs st (pyWords payload) s2 hr
      obtain ⟨rest, hr2⟩ := pyWords_cons_of_startsTok t _ hst hne hws
      simp [hr, hr2]

/-- Witness for C1 at the concrete request 42 0 info against the one-device
configuration: one published line, first token 42. -/
theorem C1_witness :
    (on_message env0 cfgW st0 "42 0 info").pub.length = 1 ∧
    (pyWords ((on_message env0 cfgW st0 "42 0 info").pub.headD "")).head? = some "42" :=
  ⟨(C1_exactly_one_response_same_cookie env0 cfgW st0 "42 0 info").1,
   (C1_exactly_one_response_same_cookie env0 cfgW st0 "42 0 info").2 "42" ["0", "info"]
     (by decide)⟩

/-- C2 counterexample: for the write request c 0 6 1 1 xyz (write-value
token xyz not an integer) the published response carries the raw ValueError
text, not ERR invalid numeric values, because int(parts[5]) sits outside
the try/except of source lines 287-292. -/
theorem C2_counterexample :
    (on_message env0 cfgW st0 "c 0 6 1 1 xyz").pub =
      ["c ERR invalid literal for int() with base 10: \x27xyz\x27"] ∧
    "c ERR invalid literal for int() with base 10: \x27xyz\x27" ≠
      "c ERR invalid numeric values" := ⟨by decide, by decide⟩

/-- C2 amended: only conversion failures of the FUNC, REGISTER or COUNT
tokens produce the response cookie ERR invalid numeric values; a write-value
token that fails conversion instead raises and yields the interpreter error
text. -/
theorem C2_amended (env : Env) (invs : List InvCfg) (st : BridgeState)
    (payload : String) (c idt f r cnt : String) (rest : List String)
    (hw : pyWords payload = c :: idt :: f :: r :: cnt :: rest)
    (inv : InvCfg) (hinv : get_inverter invs idt = some inv) (hhost : inv.host ≠ "")
    (hcmd : lowerStr f ∉ (["info", "pv", "battery", "grid", "energy", "system", "all",
      "settings"] : List String))
    (hbad : pyInt? f = none ∨ pyInt? r = none ∨ pyInt? cnt = none) :
    (on_message env invs st payload).pub = [c ++ " ERR invalid numeric values"] := by
  have h1 : lowerStr f ≠ "info" := fun h => hcmd (by rw [h]; simp)
  have h2 : lowerStr f ≠ "pv" := fun h => hcmd (by rw [h]; simp)
  have h3 : lowerStr f ≠ "battery" := fun h => hcmd (by rw [h]; simp)
  have h4 : lowerStr f ≠ "grid" := fun h => hcmd (by rw [h]; simp)
  have h5 : lowerStr f ≠ "energy" := fun h => hcmd (by rw [h]; simp)
  have h6 : lowerStr f ≠ "system" := fun h => hcmd (by rw [h]; simp)
  have h7 : lowerStr f ≠ "all" := fun h => hcmd (by rw [h]; simp)
  have h8 : lowerStr f ≠ "settings" := fun h => hcmd (by rw [h]; simp)
  have hhp : handleParts env invs st (c :: idt :: f :: r :: cnt :: rest) =
      ⟨.ok (c ++ " ERR invalid numeric values"), st, []⟩ := by
    unfold handleParts
    rw [if_neg (by simp)]
    simp only [List.getD_cons_succ, List.getD_cons_zero, List.headD_cons, hinv]
    rw [if_neg hhost, if_neg h1, if_neg (by simp [h2, h3, h4, h5, h6, h7]),
      if_neg h8, if_neg (by simp)]
    rcases hbad with hb | hb | hb
    · rcases hf2 : pyInt? r with _ | vr <;> rcases hf3 : pyInt? cnt with _ | vc <;>
        simp [hb, hf2, hf3]
    · rcases hf1 : pyInt? f with _ | vf <;> rcases hf3 : pyInt? cnt with _ | vc <;>
        simp [hb, hf1, hf3]
    · rcases hf1 : pyInt? f with _ | vf <;> rcases hf2 : pyInt? r with _ | vr <;>
        simp [hb, hf1, hf2]
  simp [on_message, handle_request, hw, hhp]

/-- Witness for the amended C2 at the request c 0 9 q 1 whose REGISTER
token q fails integer conversion. -/
theorem C2_amended_witness :
    (on_message env0 cfgW st0 "c 0 9 q 1").pub = ["c ERR invalid numeric values"] :=
  C2_amended env0 cfgW st0 "c 0 9 q 1" "c" "0" "9" "q" "1" [] (by decide)
    ⟨"0", "h", 8899⟩ (by decide) (by decide) (by decide)
    (Or.inr (Or.inl (by decide)))

/-- C3: evidence of the code bug: polling the configured device while its
connection is cached and read_runtime_data raises a transport error leaves
the (host, port) cache entry in place (no eviction happens anywhere on the
failure path) and publishes an ERR line instead; the except branch of
_poll_inverter that would log and evict is dead for transport failures
because _query_sensors catches every exception and returns an ERR string. -/
theorem C3_no_eviction_on_transport_failure :
    (poll_all envFailRead cfgW ⟨[("h", 8899)], 0⟩).1.cache = [("h", 8899)] ∧
    (poll_all envFailRead cfgW ⟨[("h", 8899)], 0⟩).2 = ["poll_1_0 ERR read timeout"] :=
  ⟨by decide, by decide⟩

/-- C4 counterexample: on a transport failure while polling, a message IS
published for the failing device (the ERR response), contradicting the
claim that no message is published and the failure is only logged. -/
theorem C4_counterexample :
    (poll_all envFailRead cfgW ⟨[("h", 8899)], 0⟩).2 ≠ ([] : List String) ∧
    (poll_all envFailRead cfgW ⟨[("h", 8899)], 0⟩).2 = ["poll_1_0 ERR read timeout"] :=
  ⟨by decide, by decide⟩

lemma poll_loop_len (env : Env) : ∀ (invs : List InvCfg) (st : BridgeState),
    (poll_loop env invs st).2.length = (invs.filter fun i => i.host != "").length := by
  intro invs
  induction invs with
  | nil => intro st; rfl
  | cons inv rest ih =>
    intro st
    by_cases h : inv.host = ""
    · simp [poll_loop, poll_inverter, h, ih]
    · simp [poll_loop, poll_inverter, h, ih]

/-- C4 amended: a failure while polling one device yields one published ERR
response for that device rather than a log-only suppression, and the
scheduler still polls every remaining configured device in the same tick:
whatever the environment (including any mix of connect and read failures)
and cache state, one tick publishes exactly one line per configured device
with a nonempty host. -/
theorem C4_amended_one_publish_per_device (env : Env) (invs : List InvCfg)
    (st : BridgeState) :
    (poll_all env invs st).2.length = (invs.filter fun i => i.host != "").length :=
  poll_loop_len env invs _

lemma splitGo_succ (fuel start count : Nat) (h : ¬ count ≤ 125) :
    splitGo (fuel + 1) start count = (start, 125) :: splitGo fuel (start + 125) (count - 125) := by
  rw [splitGo, if_neg h]

lemma splitGo_base (fuel start count : Nat) (h : count ≤ 125) :
    splitGo (fuel + 1) start count = [(start, count)] := by
  rw [splitGo, if_pos h]

lemma splitGo_le : ∀ (fuel start count : Nat), count ≤ 125 * fuel + 125 →
    ∀ r ∈ splitGo fuel start count, r.2 ≤ 125 := by
  intro fuel
  induction fuel with
  | zero =>
    intro start count hc r hr
    simp [splitGo] at hr
    subst hr
    simpa using hc
  | succ fuel ih =>
    intro start count hc r hr
    by_cases h : count ≤ 125
    · rw [splitGo_base _ _ _ h] at hr
      simp at hr
      subst hr
      simpa using h
    · rw [splitGo_succ _ _ _ h] at hr
      rcases List.mem_cons.mp hr with hr | hr
      · subst hr; simp
      · exact ih (start + 125) (count - 125) (by omega) r hr

/-- C5: every register range emitted by the (spec-modelled) discovery has
count at most 125, and an interval spanning 300 registers splits into
consecutive chunks of sizes 125, 125, 50 in that order. -/
theorem C5_ranges_capped_and_300_split :
    (∀ (catalog : List SensorDecl) (r : Nat × Nat), r ∈ discoverRanges catalog → r.2 ≤ 125) ∧
    ∀ start : Nat, (splitRange start 300).map Prod.snd = [125, 125, 50] := by
  constructor
  · intro catalog r hr
    unfold discoverRanges at hr
    split at hr
    · simp at hr
    · rw [List.mem_flatMap] at hr
      obtain ⟨iv, _, hmem⟩ := hr
      exact splitGo_le _ _ _ (by omega) r hmem
  · intro start
    rw [splitRange, splitGo_succ _ _ _ (by omega), splitGo_succ _ _ _ (by omega),
      splitGo_base _ _ _ (by omega)]
    norm_num

/-- Witness for C5: the catalog with one 600-byte sensor at offset 0 merges
to a 300-register interval whose first emitted chunk (0, 125) observes the
cap. -/
theorem C5_witness :
    ((0, 125) ∈ discoverRanges [⟨0, 600⟩]) ∧ ((0, 125) : Nat × Nat).2 ≤ 125 :=
  ⟨by decide, C5_ranges_capped_and_300_split.1 [⟨0, 600⟩] (0, 125) (by decide)⟩

/-- C6 counterexample: the request c 0 foo names a configured device and an
unknown group word, yet the published response is the short-format error,
not ERR unknown group: the unknown-group branch of _query_sensors is
unreachable from the dispatcher, which only passes it recognized names. -/
theorem C6_counterexample :
    (on_message env0 cfgW st0 "c 0 foo").pub =
      ["c ERR invalid format: need COOKIE INVERTER_ID FUNC REG COUNT"] ∧
    "c ERR invalid format: need COOKIE INVERTER_ID FUNC REG COUNT" ≠
      "c ERR unknown group" := ⟨by decide, by decide⟩

/-- C6 amended: a request naming a configured device whose operation token
is neither a recognized keyword nor an integer is answered with ERR invalid
format: need COOKIE INVERTER_ID FUNC REG COUNT when it has fewer than five
tokens and with ERR invalid numeric values otherwise; ERR unknown group is
never produced for it. -/
theorem C6_amended (env : Env) (invs : List InvCfg) (st : BridgeState)
    (payload : String) (c idt f : String) (rest : List String)
    (hw : pyWords payload = c :: idt :: f :: rest)
    (inv : InvCfg) (hinv : get_inverter invs idt = some inv) (hhost : inv.host ≠ "")
    (hcmd : lowerStr f ∉ (["info", "pv", "battery", "grid", "energy", "system", "all",
      "settings"] : List String))
    (hf : pyInt? f = none) :
    (on_message env invs st payload).pub =
      [c ++ (if rest.length < 2 then
        " ERR invalid format: need COOKIE INVERTER_ID FUNC REG COUNT"
      else " ERR invalid numeric values")] := by
  have h1 : lowerStr f ≠ "info" := fun h => hcmd (by rw [h]; simp)
  have h2 : lowerStr f ≠ "pv" := fun h => hcmd (by rw [h]; simp)
  have h3 : lowerStr f ≠ "battery" := fun h => hcmd (by rw [h]; simp)
  have h4 : lowerStr f ≠ "grid" := fun h => hcmd (by rw [h]; simp)
  have h5 : lowerStr f ≠ "energy" := fun h => hcmd (by rw [h]; simp)
  have h6 : lowerStr f ≠ "system" := fun h => hcmd (by rw [h]; simp)
  have h7 : lowerStr f ≠ "all" := fun h => hcmd (by rw [h]; simp)
  have h8 : lowerStr f ≠ "settings" := fun h => hcmd (by rw [h]; simp)
  have hhp : handleParts env invs st (c :: idt :: f :: rest) =
      ⟨.ok (c ++ (if rest.length < 2 then
        " ERR invalid format: need COOKIE INVERTER_ID FUNC REG COUNT"
      else " ERR invalid numeric values")), st, []⟩ := by
    unfold handleParts
    rw [if_neg (by simp only [List.length_cons]; omega)]
    simp only [List.getD_cons_succ, List.getD_cons_zero, List.headD_cons, hinv]
    rw [if_neg hhost, if_neg h1, if_neg (by simp [h2, h3, h4, h5, h6, h7]), if_neg h8]
    by_cases hlen : rest.length < 2
    · rw [if_pos (by simp only [List.length_cons]; omega), if_pos hlen]
    · rw [if_neg (by simp only [List.length_cons]; omega), if_neg hlen]
      rcases hf2 : pyInt? (rest.getD 0 "") with _ | v2 <;>
        rcases hf3 : pyInt? (rest.getD 1 "") with _ | v3 <;> simp [hf, hf2, hf3]
  simp [on_message, handle_request, hw, hhp]

/-- Witness for the amended C6 at the three-token request c 0 foo. -/
theorem C6_amended_witness :
    (on_message env0 cfgW st0 "c 0 foo").pub =
      ["c" ++ (if ([] : List String).length < 2 then
        " ERR invalid format: need COOKIE INVERTER_ID FUNC REG COUNT"
      else " ERR invalid numeric values")] :=
  C6_amended env0 cfgW st0 "c 0 foo" "c" "0" "foo" [] (by decide)
    ⟨"0", "h", 8899⟩ (by decide) (by decide) (by decide) (by decide)

/-- C7 counterexample: a runtime value that is a string containing a tab is
encoded and published with the tab intact (only spaces are replaced), so
the pv query response carries a payload token containing whitespace. -/
theorem C7_counterexample :
    encodeValue (RtValue.str "a\tb") = "a\tb" ∧
    (query_sensors envTab st0 "h" 8899 "c" "pv").1 = "c OK vpv1=a\tb" ∧
    '\t' ∈ "c OK vpv1=a\tb".data ∧ isWS '\t' = true :=
  ⟨by decide, by decide, by decide, by decide⟩

lemma natToStrGo_no_space : ∀ (fuel n : Nat), ' ' ∉ natToStrGo fuel n := by
  intro fuel
  induction fuel with
  | zero => intro n; simp [natToStrGo]
  | succ fuel ih =>
    intro n
    cases n with
    | zero => simp [natToStrGo]
    | succ n =>
      intro h
      rw [natToStrGo] at h
      rcases List.mem_append.mp h with h | h
      · exact ih _ h
      · have hlt : (n + 1) % 10 < 10 := Nat.mod_lt _ (by norm_num)
        have hd : ∀ k < 10, Nat.digitChar k ≠ ' ' := by decide
        exact hd _ hlt (List.mem_singleton.mp h).symm

lemma natToStr_no_space (n : Nat) : ' ' ∉ (natToStr n).data := by
  unfold natToStr
  by_cases h : n = 0
  · rw [if_pos h]; decide
  · rw [if_neg h]
    exact natToStrGo_no_space n n

lemma intToStr_no_space (i : Int) : ' ' ∉ (intToStr i).data := by
  unfold intToStr
  split
  · intro h
    rcases List.mem_append.mp h with h | h
    · simp at h
    · exact natToStr_no_space _ h
  · exact natToStr_no_space _

lemma twoDigits_no_space (r : Nat) : ' ' ∉ (twoDigits r).data := by
  unfold twoDigits
  split
  · intro h
    rcases List.mem_append.mp h with h | h
    · simp at h
    · exact natToStr_no_space _ h
  · exact natToStr_no_space _

lemma formatHundredths_no_space (q : Int) : ' ' ∉ (formatHundredths q).data := by
  unfold formatHundredths
  intro h
  simp only [dataAppend, List.mem_append] at h
  rcases h with ((h | h) | h) | h
  · split at h <;> simp at h
  · exact natToStr_no_space _ h
  · simp at h
  · exact twoDigits_no_space _ h

/-- C7 amended: the encoding dispatch is float to fixed two decimals, bool
to 1 or 0, anything else string form with spaces (U+0020) replaced by
underscores; consequently no encoded value contains a space character —
but other whitespace (a tab, a newline) in a string value passes through
unescaped. -/
theorem C7_amended_no_space_in_values :
    (∀ v : RtValue, ' ' ∉ (encodeValue v).data) ∧
    (∀ b, encodeValue (RtValue.bool b) = if b then "1" else "0") ∧
    (∀ q, encodeValue (RtValue.float q) = formatHundredths q) ∧
    (∀ s, encodeValue (RtValue.str s) =
      String.mk (s.data.map fun c => if c = ' ' then '_' else c)) := by
  refine ⟨?_, fun b => rfl, fun q => rfl, fun s => rfl⟩
  intro v
  cases v with
  | float q => exact formatHundredths_no_space q
  | bool b => cases b <;> decide
  | int n => exact intToStr_no_space n
  | str s =>
    intro h
    obtain ⟨c, _, hc⟩ := List.mem_map.mp h
    by_cases h2 : c = ' '
    · rw [if_pos h2] at hc
      exact absurd hc (by decide)
    · rw [if_neg h2] at hc
      exact h2 hc

/-- C8: the poll scheduler's effective tick interval is the configured
value clamped below to 5: every loop iteration of run() is one poll
followed by exactly max(pollInterval, 5) one-second sleeps, and the clamp
is at least 5. -/
theorem C8_interval_clamped (v : Int) (n : Nat) :
    runTicks v true n =
      (List.replicate n
        (SchedEvent.poll :: List.replicate (max v 5).toNat SchedEvent.sleepOne)).flatten ∧
    5 ≤ max v 5 ∧ (max v 5).toNat = max v.toNat 5 := by
  have hpos : (0 : Int) < max v 5 :=
    lt_of_lt_of_le (by norm_num) (le_max_right v 5)
  refine ⟨?_, le_max_right _ _, ?_⟩
  · induction n with
    | zero => rfl
    | succ n ih =>
      have hstep : runTicks v true (n + 1) =
          (if (true : Bool) ∧ 0 < max v 5 then [SchedEvent.poll] else []) ++
            List.replicate (max v 5).toNat SchedEvent.sleepOne ++ runTicks v true n := rfl
      rw [hstep, if_pos ⟨rfl, hpos⟩, ih, List.replicate_succ, List.flatten_cons]
      simp [List.append_assoc]
  · rcases le_total v 5 with h | h
    · rw [max_eq_right h]
      have h2 : v.toNat ≤ 5 := by omega
      rw [max_eq_right h2]
      decide
    · rw [max_eq_left h]
      have h2 : 5 ≤ v.toNat := by omega
      rw [max_eq_left h2]

/-- C9: for write requests (function codes 6 and 16) the COUNT token must
parse as an integer but its value is otherwise ignored: the whole outcome
(response, state, issued device command) is identical under any two parsed
COUNT tokens; function 6 issues a single-register write of the sixth
token's value to REGISTER, and function 16 issues a multi-register write of
the big-endian byte concatenation of all tokens from the sixth onward,
regardless of COUNT. -/
theorem C9_count_ignored_for_writes (env : Env) (invs : List InvCfg) (st : BridgeState)
    (c idt f r cnt1 cnt2 v : String) (vs : List String)
    (inv : InvCfg) (hinv : get_inverter invs idt = some inv) (hhost : inv.host ≠ "")
    (reg : Int) (hr : pyInt? r = some reg)
    (h1 : (pyInt? cnt1).isSome) (h2 : (pyInt? cnt2).isSome)
    (hk : lowerStr f ∉ (["info", "pv", "battery", "grid", "energy", "system", "all",
      "settings"] : List String)) :
    ((pyInt? f = some 6 ∨ pyInt? f = some 16) →
      handleParts env invs st (c :: idt :: f :: r :: cnt1 :: v :: vs) =
        handleParts env invs st (c :: idt :: f :: r :: cnt2 :: v :: vs)) ∧
    (pyInt? f = some 6 → ∀ value st1, pyInt? v = some value →
      pyConnect env st inv.host inv.port = .ok st1 →
      handleParts env invs st (c :: idt :: f :: r :: cnt1 :: v :: vs) =
        ⟨.ok (write_register env inv.host inv.port c reg value), st1,
          [.write inv.host inv.port reg value]⟩) ∧
    (pyInt? f = some 16 → ∀ data st1, buildBytes (v :: vs) = .ok data →
      pyConnect env st inv.host inv.port = .ok st1 →
      handleParts env invs st (c :: idt :: f :: r :: cnt1 :: v :: vs) =
        ⟨.ok (write_multi env inv.host inv.port c reg data), st1,
          [.writeMulti inv.host inv.port reg data]⟩) := by
  have hk1 : lowerStr f ≠ "info" := fun h => hk (by rw [h]; simp)
  have hk2 : lowerStr f ≠ "pv" := fun h => hk (by rw [h]; simp)
  have hk3 : lowerStr f ≠ "battery" := fun h => hk (by rw [h]; simp)
  have hk4 : lowerStr f ≠ "grid" := fun h => hk (by rw [h]; simp)
  have hk5 : lowerStr f ≠ "energy" := fun h => hk (by rw [h]; simp)
  have hk6 : lowerStr f ≠ "system" := fun h => hk (by rw [h]; simp)
  have hk7 : lowerStr f ≠ "all" := fun h => hk (by rw [h]; simp)
  have hk8 : lowerStr f ≠ "settings" := fun h => hk (by rw [h]; simp)
  have key : ∀ (cnt : String) (cv : Int), pyInt? cnt = some cv →
      ∀ fv : Int, pyInt? f = some fv →
      handleParts env invs st (c :: idt :: f :: r :: cnt :: v :: vs) =
        handleFunc env st inv.host inv.port c (c :: idt :: f :: r :: cnt :: v :: vs)
          fv reg cv := by
    intro cnt cv hcv fv hfv
    unfold handleParts
    rw [if_neg (by simp only [List.length_cons]; omega)]
    simp only [List.getD_cons_succ, List.getD_cons_zero, List.headD_cons, hinv]
    rw [if_neg hhost, if_neg hk1, if_neg (by simp [hk2, hk3, hk4, hk5, hk6, hk7]),
      if_neg hk8, if_neg (by simp only [List.length_cons]; omega)]
    simp only [hfv, hr, hcv]
  have keyF : ∀ (p1 p2 : List String) (fv cv1 cv2 : Int),
      p1.length = p2.length → p1.getD 5 "" = p2.getD 5 "" → p1.drop 5 = p2.drop 5 →
      (fv = 6 ∨ fv = 16) →
      handleFunc env st inv.host inv.port c p1 fv reg cv1 =
        handleFunc env st inv.host inv.port c p2 fv reg cv2 := by
    intro p1 p2 fv cv1 cv2 hlen hgd hdrop hfv
    unfold handleFunc
    split
    · rfl
    · have h34 : ¬(fv = 3 ∨ fv = 4) := by rcases hfv with rfl | rfl <;> norm_num
      rw [if_neg h34, if_neg h34, hlen, hgd, hdrop]
  refine ⟨?_, ?_, ?_⟩
  · intro hf
    obtain ⟨cv1, hcv1⟩ := Option.isSome_iff_exists.mp h1
    obtain ⟨cv2, hcv2⟩ := Option.isSome_iff_exists.mp h2
    rcases hf with hf | hf
    · rw [key cnt1 cv1 hcv1 6 hf, key cnt2 cv2 hcv2 6 hf]
      exact keyF _ _ 6 cv1 cv2 (by simp) (by simp [List.getD]) (by simp) (Or.inl rfl)
    · rw [key cnt1 cv1 hcv1 16 hf, key cnt2 cv2 hcv2 16 hf]
      exact keyF _ _ 16 cv1 cv2 (by simp) (by simp [List.getD]) (by simp) (Or.inr rfl)
  · intro hf value st1 hv hconn
    obtain ⟨cv1, hcv1⟩ := Option.isSome_iff_exists.mp h1
    rw [key cnt1 cv1 hcv1 6 hf]
    unfold handleFunc
    simp only [hconn]
    rw [if_neg (by norm_num), if_pos trivial, if_neg (by simp only [List.length_cons]; omega)]
    simp only [List.getD_cons_succ, List.getD_cons_zero, hv]
  · intro hf data st1 hdata hconn
    obtain ⟨cv1, hcv1⟩ := Option.isSome_iff_exists.mp h1
    rw [key cnt1 cv1 hcv1 16 hf]
    unfold handleFunc
    simp only [hconn]
    rw [if_neg (by norm_num), if_neg (by norm_num), if_pos trivial,
      if_neg (by simp only [List.length_cons]; omega)]
    simp only [List.drop_succ_cons, List.drop_zero, hdata]

/-- Witness for C9: the write requests k 0 6 7 1 5 and k 0 6 7 250 5 give
the same outcome. -/
theorem C9_witness :
    handleParts env0 cfgW st0 ["k", "0", "6", "7", "1", "5"] =
      handleParts env0 cfgW st0 ["k", "0", "6", "7", "250", "5"] :=
  (C9_count_ignored_for_writes env0 cfgW st0 "k" "0" "6" "7" "1" "250" "5" []
    ⟨"0", "h", 8899⟩ (by decide) (by decide) 7 (by decide) (by decide) (by decide)
    (by decide)).1 (Or.inl (by decide))

/-- C10 counterexample: a one-byte device payload for a one-register read
produces a struct.error ERR response instead of OK with zero values: the
loop bound min(count * 2, len(raw)) is odd, so the final slice raw[0:2] has
one byte and struct.unpack raises (caught as ERR). -/
theorem C10_counterexample :
    read_registers envShort "h" 8899 "c" 0 1 =
      "c ERR unpack requires a buffer of 2 bytes" ∧
    "c ERR unpack requires a buffer of 2 bytes" ≠ "c OK " := ⟨by decide, by decide⟩

lemma unpackPairs_ok : ∀ (k : Nat) (raw : List Nat), 2 * k ≤ raw.length →
    ∃ vs, unpackPairs raw k = Except.ok vs ∧ vs.length = k := by
  intro k
  induction k with
  | zero =>
    intro raw _
    refine ⟨[], ?_, rfl⟩
    rcases raw with _ | ⟨b1, _ | ⟨b2, rest⟩⟩ <;> rfl
  | succ k ih =>
    intro raw h
    rcases raw with _ | ⟨b1, _ | ⟨b2, rest⟩⟩
    · exfalso
      simp only [List.length_nil] at h
      omega
    · exfalso
      simp only [List.length_cons, List.length_nil] at h
      omega
    · simp only [List.length_cons] at h
      obtain ⟨vs, hvs, hlen⟩ := ih rest (by omega)
      exact ⟨(b1 * 256 + b2) :: vs, by simp [unpackPairs, hvs], by simp [hlen]⟩

lemma unpackPairs_err : ∀ (k : Nat) (raw : List Nat), raw.length + 1 = 2 * k →
    unpackPairs raw k = Except.error "unpack requires a buffer of 2 bytes" := by
  intro k
  induction k with
  | zero => intro raw h; omega
  | succ k ih =>
    intro raw h
    rcases raw with _ | ⟨b1, _ | ⟨b2, rest⟩⟩
    · exfalso
      simp only [List.length_nil] at h
      omega
    · rfl
    · simp only [List.length_cons] at h
      have ih2 := ih rest (by omega)
      simp [unpackPairs, ih2]

/-- C10 amended: for a read of COUNT registers whose device payload is raw,
when len(raw) is even or at least 2 * COUNT the response is OK with exactly
min(COUNT, len(raw) / 2) values (short payloads give fewer values, extra
bytes are ignored); but when the device returns an odd number of bytes
fewer than 2 * COUNT, the final one-byte slice makes struct.unpack raise
and the response is the ERR struct.error text — the code does error on
such payloads. -/
theorem C10_read_value_count (env : Env) (host : String) (port : Int) (cookie : String)
    (offset : Int) (n : Nat) (raw : List Nat)
    (hraw : env.readRaw host port offset (n : Int) = .ok raw) :
    (raw.length % 2 = 0 ∨ 2 * n ≤ raw.length →
      ∃ vals, unpackPairs raw ((min (2 * n) raw.length + 1) / 2) = .ok vals ∧
        vals.length = min n (raw.length / 2) ∧
        read_registers env host port cookie offset (n : Int) =
          cookie ++ " OK " ++ joinSpace (vals.map natToStr)) ∧
    (raw.length % 2 = 1 ∧ raw.length < 2 * n →
      read_registers env host port cookie offset (n : Int) =
        cookie ++ " ERR " ++ "unpack requires a buffer of 2 bytes") := by
  have hk : ((min (2 * (n : Int)) ((raw.length : Nat) : Int)).toNat + 1) / 2 =
      (min (2 * n) raw.length + 1) / 2 := by omega
  constructor
  · intro hcase
    have h2k : 2 * ((min (2 * n) raw.length + 1) / 2) ≤ raw.length := by omega
    obtain ⟨vals, hvals, hlen⟩ := unpackPairs_ok _ raw h2k
    refine ⟨vals, hvals, by omega, ?_⟩
    simp only [read_registers, hraw]
    rw [hk, hvals]
  · rintro ⟨hodd, hlt⟩
    have heq : raw.length + 1 = 2 * ((min (2 * n) raw.length + 1) / 2) := by omega
    have herr := unpackPairs_err _ raw heq
    simp only [read_registers, hraw]
    rw [hk, herr]

/-- Environment whose register read returns the four bytes 1 2 3 4. -/
def envRaw4 : Env := { env0 with readRaw := fun _ _ _ _ => .ok [1, 2, 3, 4] }

/-- Witness for the amended C10: reading two registers from a four-byte
payload yields OK with min(2, 2) = 2 values. -/
theorem C10_witness :
    ∃ vals, unpackPairs [1, 2, 3, 4] ((min (2 * 2) ([1, 2, 3, 4] : List Nat).length + 1) / 2) =
        .ok vals ∧
      vals.length = min 2 (([1, 2, 3, 4] : List Nat).length / 2) ∧
      read_registers envRaw4 "h" 8899 "c" 0 ((2 : Nat) : Int) =
        "c" ++ " OK " ++ joinSpace (vals.map natToStr) :=
  (C10_read_value_count envRaw4 "h" 8899 "c" 0 2 [1, 2, 3, 4] rfl).1 (Or.inr (by decide))
